import Mathlib

/-!
Verification of the Gauss-Aurora nowcasting pipeline.

Shallow embedding of the Python sources:
- `src/ml/train/dataset_builder.py` : feature/target codec and window builder
- `src/ml/train/train_unet.py`      : baseline trainer and model registry
- `src/ml/infer/infer_server.py`    : heuristic forecast engine

Python floats are modelled as exact rationals (ℚ); the one square root in the
baseline trainer is modelled with `Real.sqrt`.  Missing JSON fields are
`Option` values and `json.loads`-level file absence is an outer `Option` on
the file's contents.
-/

namespace GaussAurora

/-! ## Data model: telemetry points (dataset_builder.py docstring, infer_server.py) -/

/-- `solarWind {speed, density}` sub-group; each field may be absent. -/
structure SolarWind where
  speed : Option ℚ := none
  density : Option ℚ := none
  deriving DecidableEq, Repr

/-- `magneticField {x, y, z, bt}` sub-group. -/
structure MagneticField where
  x : Option ℚ := none
  y : Option ℚ := none
  z : Option ℚ := none
  bt : Option ℚ := none
  deriving DecidableEq, Repr

/-- `electricField {ey}` sub-group. -/
structure ElectricField where
  ey : Option ℚ := none
  deriving DecidableEq, Repr

/-- `coupling {newell, epsilon}` sub-group. -/
structure Coupling where
  newell : Option ℚ := none
  epsilon : Option ℚ := none
  deriving DecidableEq, Repr

/-- `indices {kp, dst}` sub-group. -/
structure Indices where
  kp : Option ℚ := none
  dst : Option ℚ := none
  deriving DecidableEq, Repr

/-- One telemetry point: every sub-group (and the timestamp) may be absent,
mirroring `point.get("solarWind", {})` etc. in the Python sources. -/
structure TelemetryPoint where
  timestamp : Option String := none
  solarWind : Option SolarWind := none
  magneticField : Option MagneticField := none
  electricField : Option ElectricField := none
  coupling : Option Coupling := none
  indices : Option Indices := none
  deriving DecidableEq, Repr

/-! ## Feature codec (dataset_builder.py, `feature_vector` / `target_vector`) -/

/-- `feature_vector(point)` from dataset_builder.py: the 11-float vector
`[speed, density, bx, by, bz, bt, ey, newell, epsilon, kp, dst]`, each nested
field defaulting to `0.0` when absent. -/
def feature_vector (point : TelemetryPoint) : List ℚ :=
  let sw := point.solarWind.getD {}
  let b := point.magneticField.getD {}
  let e := point.electricField.getD {}
  let c := point.coupling.getD {}
  let i := point.indices.getD {}
  [ sw.speed.getD 0, sw.density.getD 0,
    b.x.getD 0, b.y.getD 0, b.z.getD 0, b.bt.getD 0,
    e.ey.getD 0,
    c.newell.getD 0, c.epsilon.getD 0,
    i.kp.getD 0, i.dst.getD 0 ]

/-- `target_vector(point)` from dataset_builder.py:
`perturb = max(0, kp*10 - dst*0.1)`,
`aurora = min(1, max(0, kp/9 + max(0, -dst)/400))`. -/
def target_vector (point : TelemetryPoint) : List ℚ :=
  let i := point.indices.getD {}
  let kp := i.kp.getD 0
  let dst := i.dst.getD 0
  let perturb := max 0 (kp * 10 - dst * 0.1)
  let aurora := min 1 (max 0 (kp / 9 + max 0 (-dst) / 400))
  [perturb, aurora]

/-- `clamp(x, lo, hi)` as the spec writes it: used to relate the codec's
`min`/`max` nesting to the specification formulas. -/
def clamp (x lo hi : ℚ) : ℚ :=
  min hi (max lo x)

/-! ## Window builder (dataset_builder.py, `build_examples`) -/

/-- A `WindowExample` row: `{x, y, timestamp}`. -/
structure WindowExample where
  x : List (List ℚ)
  y : List ℚ
  timestamp : String
  deriving DecidableEq, Repr

/-- `build_examples(points, input_steps, horizon_steps)`:
for `end` in `range(input_steps, len(points) - horizon_steps)` take
`context = points[end-input_steps : end]`, `future = points[end+horizon_steps-1]`,
and emit `{x = map feature_vector context, y = target_vector future,
timestamp = future.get("timestamp", "")}`.  Python's empty-range semantics for
`len(points) - horizon_steps ≤ input_steps` coincide with ℕ subtraction. -/
def build_examples (points : List TelemetryPoint)
    (input_steps horizon_steps : ℕ) : List WindowExample :=
  (List.range' input_steps (points.length - horizon_steps - input_steps)).map
    fun e =>
      let context := (points.drop (e - input_steps)).take input_steps
      let future := points.getD (e + horizon_steps - 1) {}
      { x := context.map feature_vector
        y := target_vector future
        timestamp := future.timestamp.getD "" }

/-- The default `WindowExample` used when indexing example lists. -/
def dfltExample : WindowExample :=
  { x := [], y := [], timestamp := "" }

/-- A telemetry point carrying only a timestamp (used in concrete inputs). -/
def ptT (s : String) : TelemetryPoint :=
  { timestamp := some s }

theorem build_examples_length (points : List TelemetryPoint)
    (I H : ℕ) :
    (build_examples points I H).length = points.length - H - I := by
  simp [build_examples]

theorem build_examples_getElem (points : List TelemetryPoint) (I H k : ℕ)
    (hk : k < (build_examples points I H).length) :
    (build_examples points I H)[k] =
      { x := ((points.drop k).take I).map feature_vector
        y := target_vector (points.getD (I + k + H - 1) {})
        timestamp := (points.getD (I + k + H - 1) {}).timestamp.getD "" } := by
  have hk' : k < (points.length - H - I) := by
    simpa [build_examples_length] using hk
  simp only [build_examples, List.getElem_map, List.getElem_range', one_mul]
  have h1 : I + k - I = k := by omega
  rw [h1]

/-- Four telemetry points with chronological timestamps, a concrete input. -/
def pts4 : List TelemetryPoint :=
  [ptT "a", ptT "b", ptT "c", ptT "d"]

/-- C3: for a sequence of length N and positive `inputSteps = I`,
`horizonSteps = H`, `build_examples` returns exactly `max 0 (N - I - H)`
examples, and returns the empty list (not an error) when `N ≤ I + H`. -/
theorem c3_window_count (points : List TelemetryPoint) (I H : ℕ)
    (hI : 0 < I) (hH : 0 < H) :
    ((build_examples points I H).length : ℤ) =
        max 0 ((points.length : ℤ) - I - H) ∧
    (points.length ≤ I + H → build_examples points I H = []) := by
  constructor
  · rw [build_examples_length]
    omega
  · intro h
    have h0 : points.length - H - I = 0 := by omega
    simp [build_examples, h0]

theorem c3_window_count_witness :
    (0 < 1) ∧ (0 < 1) ∧
    (((build_examples pts4 1 1).length : ℤ) =
        max 0 ((pts4.length : ℤ) - 1 - 1) ∧
      (pts4.length ≤ 1 + 1 → build_examples pts4 1 1 = [])) :=
  ⟨by decide, by decide, c3_window_count pts4 1 1 (by decide) (by decide)⟩

/-- C5: `target_vector` computes
`[max 0 (kp*10 - dst*0.1), clamp (kp/9 + max 0 (-dst)/400) 0 1]` with `kp`,
`dst` defaulting to 0 when absent; on `{indices: {kp: 5, dst: -50}}` the
target is `[55, 49/72]` (49/72 ≈ 0.6806). -/
theorem c5_targets (p : TelemetryPoint) :
    target_vector p =
      [ max 0 (((p.indices.getD {}).kp.getD 0) * 10 -
          ((p.indices.getD {}).dst.getD 0) * 0.1),
        clamp (((p.indices.getD {}).kp.getD 0) / 9 +
          max 0 (-((p.indices.getD {}).dst.getD 0)) / 400) 0 1 ] ∧
    target_vector { indices := some { kp := some 5, dst := some (-50) } } =
      [55, 49/72] := by
  constructor
  · simp [target_vector, clamp]
  · simp only [target_vector]
    norm_num [max_def, min_def]

/-- C2 (counterexample): on a four-point input whose timestamps are strictly
decreasing, the timestamps of successive examples are decreasing, so the
unconditional ordering clause of the claim fails. -/
theorem c2_ordering_counterexample :
    ¬ List.Pairwise (· ≤ ·)
      ((build_examples [ptT "d", ptT "c", ptT "b", ptT "a"] 1 1).map
        (fun ex => ex.timestamp)) := by
  have hev : (build_examples [ptT "d", ptT "c", ptT "b", ptT "a"] 1 1).map
      (fun ex => ex.timestamp) = ["c", "b"] := by decide
  rw [hev]
  simp only [List.pairwise_cons, List.mem_cons, List.not_mem_nil, or_false,
    forall_eq_or_imp, forall_eq, false_implies, implies_true, and_true,
    List.Pairwise.nil, String.le_iff_toList_le]
  decide

/-- C2 (amended): example `k` of `build_examples points I H` has
`x = map feature_vector points[k : k+I]`, `y = target_vector points[I+k+H-1]`
and `timestamp = points[I+k+H-1].timestamp` (examples are produced in
increasing `end` order, `end = I + k`); and, provided the input points'
timestamps are non-decreasing, the output examples' timestamps are
non-decreasing. -/
theorem c2_windows (points : List TelemetryPoint) (I H k : ℕ)
    (hI : 0 < I) (hH : 0 < H)
    (hk : k < (build_examples points I H).length) :
    (build_examples points I H).getD k dfltExample =
      { x := ((points.drop k).take I).map feature_vector
        y := target_vector (points.getD (I + k + H - 1) {})
        timestamp := (points.getD (I + k + H - 1) {}).timestamp.getD "" } ∧
    (List.Pairwise (· ≤ ·) (points.map fun p => p.timestamp.getD "") →
      List.Pairwise (· ≤ ·)
        ((build_examples points I H).map fun ex => ex.timestamp)) := by
  constructor
  · rw [List.getD_eq_getElem _ _ hk, build_examples_getElem points I H k hk]
  · intro hch
    rw [List.pairwise_iff_getElem] at hch ⊢
    intro a b ha hb hab
    rw [List.length_map] at ha hb
    have hEa := build_examples_getElem points I H a ha
    have hEb := build_examples_getElem points I H b hb
    simp only [List.getElem_map, hEa, hEb]
    have hlen : (build_examples points I H).length = points.length - H - I :=
      build_examples_length points I H
    have hia : I + a + H - 1 < points.length := by omega
    have hib : I + b + H - 1 < points.length := by omega
    have hord := hch (I + a + H - 1) (I + b + H - 1)
      (by simpa using hia) (by simpa using hib) (by omega)
    simp only [List.getElem_map] at hord
    rw [List.getD_eq_getElem _ _ hia, List.getD_eq_getElem _ _ hib]
    exact hord

theorem c2_windows_witness :
    (0 < 1) ∧ (0 < 1) ∧ 0 < (build_examples pts4 1 1).length ∧
    ((build_examples pts4 1 1).getD 0 dfltExample =
      { x := ((pts4.drop 0).take 1).map feature_vector
        y := target_vector (pts4.getD (1 + 0 + 1 - 1) {})
        timestamp := (pts4.getD (1 + 0 + 1 - 1) {}).timestamp.getD "" } ∧
      (List.Pairwise (· ≤ ·) (pts4.map fun p => p.timestamp.getD "") →
        List.Pairwise (· ≤ ·)
          ((build_examples pts4 1 1).map fun ex => ex.timestamp))) :=
  ⟨by decide, by decide, by decide,
    c2_windows pts4 1 1 0 (by decide) (by decide) (by decide)⟩

/-! ## Forecast engine (infer_server.py, `infer`) -/

/-- The process-wide model version constant. -/
def MODEL_VERSION : String := "unet-baseline-v1"

/-- The five values `infer` extracts from the latest telemetry point
(infer_server.py lines 22-26), with the defaults used there:
`speed = 400.0`, `density = 5.0`, `bz = 0.0`, `kp = 2.0`, `newell = 0.0`. -/
structure LatestVals where
  speed : ℚ
  density : ℚ
  bz : ℚ
  kp : ℚ
  newell : ℚ
  deriving DecidableEq, Repr

/-- Extraction of the latest point's values: `latest = sequence[-1] if
sequence else {}`, then each nested field with `infer`'s own defaults. -/
def infer_latest_values (sequence : List TelemetryPoint) : LatestVals :=
  let latest := sequence.getLast?.getD {}
  let sw := latest.solarWind.getD {}
  let b := latest.magneticField.getD {}
  let idx := latest.indices.getD {}
  let coupling := latest.coupling.getD {}
  { speed := sw.speed.getD 400
    density := sw.density.getD 5
    bz := b.z.getD 0
    kp := idx.kp.getD 2
    newell := coupling.newell.getD 0 }

/-- One forecast step; the timestamp is modelled in minutes (`now + minutes`). -/
structure Prediction where
  timestamp : ℤ
  geomagneticPerturbation : ℚ
  auroraIntensity : ℚ
  confidence : ℚ
  deriving DecidableEq, Repr

/-- The default `Prediction` used when indexing prediction lists. -/
def dfltPrediction : Prediction :=
  { timestamp := 0, geomagneticPerturbation := 0, auroraIntensity := 0
    confidence := 0 }

/-- `infer`'s response object. -/
structure Forecast where
  modelVersion : String
  generatedAt : ℤ
  horizonMinutes : ℤ
  predictions : List Prediction
  deriving DecidableEq, Repr

/-- `driver = max(0, -bz)*0.45 + (speed-350)*0.004 + density*0.05 + newell/8000`
(loop body of `infer`; it does not depend on the step index). -/
def infer_driver (v : LatestVals) : ℚ :=
  max 0 (-v.bz) * 0.45 + (v.speed - 350) * 0.004 + v.density * 0.05 +
    v.newell / 8000

/-- `perturb = kp * 8.0 + driver * 12.0`. -/
def infer_perturb (v : LatestVals) : ℚ :=
  v.kp * 8 + infer_driver v * 12

/-- `aurora = max(0, min(1, (kp/9)*0.7 + driver*0.03))`. -/
def infer_aurora (v : LatestVals) : ℚ :=
  max 0 (min 1 ((v.kp / 9) * 0.7 + infer_driver v * 0.03))

/-- `confidence = max(0.35, min(0.95, 0.9 - i*0.02))` for step index `i`. -/
def infer_confidence (i : ℕ) : ℚ :=
  max 0.35 (min 0.95 (0.9 - (i : ℚ) * 0.02))

/-- `steps = max(1, min(24, horizon // 5))`; Python `//` is floor division,
i.e. `Int.fdiv`. -/
def infer_steps (horizon : ℤ) : ℤ :=
  max 1 (min 24 (Int.fdiv horizon 5))

/-- `infer(payload)` from infer_server.py: `horizon` defaults to 60, the
latest point's values are extracted with `infer`'s defaults, and one
prediction is emitted per step `i < steps`, `minutes = (i+1)*5`. -/
def infer (payload_horizon : Option ℤ) (sequence : List TelemetryPoint)
    (now : ℤ) : Forecast :=
  let horizon := payload_horizon.getD 60
  let v := infer_latest_values sequence
  let steps := infer_steps horizon
  let predictions := (List.range steps.toNat).map fun (i : ℕ) =>
    { timestamp := now + ((i : ℤ) + 1) * 5
      geomagneticPerturbation := infer_perturb v
      auroraIntensity := infer_aurora v
      confidence := infer_confidence i : Prediction }
  { modelVersion := MODEL_VERSION
    generatedAt := now
    horizonMinutes := horizon
    predictions := predictions }

theorem infer_predictions_length (h : Option ℤ) (s : List TelemetryPoint)
    (now : ℤ) :
    (infer h s now).predictions.length = (infer_steps (h.getD 60)).toNat := by
  simp [infer]

theorem infer_steps_bounds (horizon : ℤ) :
    1 ≤ infer_steps horizon ∧ infer_steps horizon ≤ 24 := by
  unfold infer_steps
  generalize Int.fdiv horizon 5 = d
  omega

theorem infer_predictions_getElem (h : Option ℤ) (s : List TelemetryPoint)
    (now : ℤ) (i : ℕ) (hi : i < (infer h s now).predictions.length) :
    (infer h s now).predictions[i] =
      { timestamp := now + ((i : ℤ) + 1) * 5
        geomagneticPerturbation := infer_perturb (infer_latest_values s)
        auroraIntensity := infer_aurora (infer_latest_values s)
        confidence := infer_confidence i } := by
  simp [infer, List.getElem_map, List.getElem_range]

/-- C6: the forecast contains exactly `clamp(horizonMinutes // 5, 1, 24)`
predictions (Python floor division); 60 minutes gives 12 predictions, 1000
gives 24, and every horizon gives between 1 and 24. -/
theorem c6_step_count :
    (∀ (h : ℤ) (s : List TelemetryPoint) (now : ℤ),
      (infer (some h) s now).predictions.length =
        (max 1 (min 24 (Int.fdiv h 5))).toNat ∧
      1 ≤ (infer (some h) s now).predictions.length ∧
      (infer (some h) s now).predictions.length ≤ 24) ∧
    (∀ (s : List TelemetryPoint) (now : ℤ),
      (infer (some 60) s now).predictions.length = 12) ∧
    (∀ (s : List TelemetryPoint) (now : ℤ),
      (infer (some 1000) s now).predictions.length = 24) := by
  refine ⟨fun h s now => ?_, fun s now => ?_, fun s now => ?_⟩
  · have hb := infer_steps_bounds ((some h).getD 60)
    refine ⟨?_, ?_, ?_⟩ <;> rw [infer_predictions_length]
    · rfl
    · omega
    · omega
  · rw [infer_predictions_length]
    rfl
  · rw [infer_predictions_length]
    rfl

/-- C7: prediction `i` of any forecast has confidence
`clamp(0.9 - i*0.02, 0.35, 0.95)`; consequently confidence is bounded by
`[0.35, 0.95]` and non-increasing in the step index. -/
theorem c7_confidence (h : Option ℤ) (s : List TelemetryPoint) (now : ℤ)
    (i : ℕ) (hi : i < (infer h s now).predictions.length) :
    ((infer h s now).predictions.getD i dfltPrediction).confidence =
      max 0.35 (min 0.95 (0.9 - (i : ℚ) * 0.02)) ∧
    0.35 ≤ ((infer h s now).predictions.getD i dfltPrediction).confidence ∧
    ((infer h s now).predictions.getD i dfltPrediction).confidence ≤ 0.95 ∧
    (i + 1 < (infer h s now).predictions.length →
      ((infer h s now).predictions.getD (i + 1) dfltPrediction).confidence ≤
        ((infer h s now).predictions.getD i dfltPrediction).confidence) := by
  have hgi : ((infer h s now).predictions.getD i dfltPrediction).confidence =
      infer_confidence i := by
    rw [List.getD_eq_getElem _ _ hi, infer_predictions_getElem h s now i hi]
  refine ⟨?_, ?_, ?_, ?_⟩
  · rw [hgi]
    rfl
  · rw [hgi]
    exact le_max_left _ _
  · rw [hgi]
    exact max_le (by norm_num) (min_le_left _ _)
  · intro hij
    have hgj : ((infer h s now).predictions.getD (i + 1)
        dfltPrediction).confidence = infer_confidence (i + 1) := by
      rw [List.getD_eq_getElem _ _ hij,
        infer_predictions_getElem h s now (i + 1) hij]
    rw [hgi, hgj]
    unfold infer_confidence
    refine max_le_max le_rfl (min_le_min le_rfl ?_)
    push_cast
    linarith [Nat.cast_nonneg (α := ℚ) i]

theorem c7_confidence_witness :
    0 < (infer (some 60) [] 0).predictions.length ∧
    (((infer (some 60) [] 0).predictions.getD 0 dfltPrediction).confidence =
      max 0.35 (min 0.95 (0.9 - ((0 : ℕ) : ℚ) * 0.02)) ∧
    0.35 ≤ ((infer (some 60) [] 0).predictions.getD 0
        dfltPrediction).confidence ∧
    ((infer (some 60) [] 0).predictions.getD 0
        dfltPrediction).confidence ≤ 0.95 ∧
    (0 + 1 < (infer (some 60) [] 0).predictions.length →
      ((infer (some 60) [] 0).predictions.getD (0 + 1)
          dfltPrediction).confidence ≤
        ((infer (some 60) [] 0).predictions.getD 0
            dfltPrediction).confidence)) :=
  ⟨by decide, c7_confidence (some 60) [] 0 0 (by decide)⟩

/-- C9 (implicit): within one forecast all predictions carry the same
`geomagneticPerturbation` and the same `auroraIntensity` — the driver,
perturbation and aurora formulas do not depend on the step index. -/
theorem c9_constant_within_forecast (h : Option ℤ) (s : List TelemetryPoint)
    (now : ℤ) (i j : ℕ)
    (hi : i < (infer h s now).predictions.length)
    (hj : j < (infer h s now).predictions.length) :
    ((infer h s now).predictions.getD i
        dfltPrediction).geomagneticPerturbation =
      ((infer h s now).predictions.getD j
        dfltPrediction).geomagneticPerturbation ∧
    ((infer h s now).predictions.getD i dfltPrediction).auroraIntensity =
      ((infer h s now).predictions.getD j dfltPrediction).auroraIntensity ∧
    ((infer h s now).predictions.getD i
        dfltPrediction).geomagneticPerturbation =
      infer_perturb (infer_latest_values s) ∧
    ((infer h s now).predictions.getD i dfltPrediction).auroraIntensity =
      infer_aurora (infer_latest_values s) := by
  rw [List.getD_eq_getElem _ _ hi, List.getD_eq_getElem _ _ hj,
    infer_predictions_getElem h s now i hi,
    infer_predictions_getElem h s now j hj]
  exact ⟨rfl, rfl, rfl, rfl⟩

theorem c9_constant_within_forecast_witness :
    0 < (infer (some 60) [] 0).predictions.length ∧
    1 < (infer (some 60) [] 0).predictions.length ∧
    (((infer (some 60) [] 0).predictions.getD 0
        dfltPrediction).geomagneticPerturbation =
      ((infer (some 60) [] 0).predictions.getD 1
        dfltPrediction).geomagneticPerturbation ∧
    ((infer (some 60) [] 0).predictions.getD 0
        dfltPrediction).auroraIntensity =
      ((infer (some 60) [] 0).predictions.getD 1
        dfltPrediction).auroraIntensity ∧
    ((infer (some 60) [] 0).predictions.getD 0
        dfltPrediction).geomagneticPerturbation =
      infer_perturb (infer_latest_values []) ∧
    ((infer (some 60) [] 0).predictions.getD 0
        dfltPrediction).auroraIntensity =
      infer_aurora (infer_latest_values [])) :=
  ⟨by decide, by decide,
    c9_constant_within_forecast (some 60) [] 0 0 1 (by decide) (by decide)⟩

/-- The latest-point values `infer` actually uses for an empty sequence. -/
def infer_default_vals : LatestVals :=
  { speed := 400, density := 5, bz := 0, kp := 2, newell := 0 }

/-- The all-zero values the data-model's `0.0`-default reading would give. -/
def codec_zero_vals : LatestVals :=
  { speed := 0, density := 0, bz := 0, kp := 0, newell := 0 }

/-- C1 (counterexample): on an empty sequence `infer` extracts
`speed = 400, density = 5, bz = 0, kp = 2, newell = 0` — not the codec's
all-`0.0` defaults — and the resulting first prediction's perturbation
differs from the value the all-zero-defaults reading would give. -/
theorem c1_zero_defaults_counterexample :
    infer_latest_values [] = infer_default_vals ∧
    infer_latest_values [] ≠ codec_zero_vals ∧
    ((infer (some 60) [] 0).predictions.getD 0
        dfltPrediction).geomagneticPerturbation ≠
      infer_perturb codec_zero_vals := by
  refine ⟨rfl, by decide, ?_⟩
  have h0 : 0 < (infer (some 60) [] 0).predictions.length := by decide
  rw [List.getD_eq_getElem _ _ h0,
    infer_predictions_getElem (some 60) [] 0 0 h0]
  show infer_perturb (infer_latest_values []) ≠ _
  norm_num [infer_perturb, infer_driver, infer_latest_values,
    codec_zero_vals, max_def]

/-- C1 (amended): `infer` never fails on an empty sequence — it always emits
at least one prediction, behaves exactly as on a sequence ending in an
all-absent point, and reads that point with `infer`'s own defaults
`speed = 400, density = 5, bz = 0, kp = 2, newell = 0`. -/
theorem c1_empty_sequence (h : Option ℤ) (now : ℤ) :
    (infer h [] now).predictions ≠ [] ∧
    infer h [] now = infer h [{}] now ∧
    infer_latest_values [] = infer_default_vals := by
  refine ⟨?_, rfl, rfl⟩
  have hb := infer_steps_bounds (h.getD 60)
  have hl := infer_predictions_length h [] now
  intro hemp
  rw [hemp] at hl
  simp only [List.length_nil] at hl
  omega

/-! ## Baseline trainer (train_unet.py, `baseline_train`) -/

/-- `ModelMetrics`: `loss = null` signals "no data", not a numeric failure. -/
structure ModelMetrics where
  loss : Option ℝ
  samples : ℕ
  predict_mean : Option (ℚ × ℚ)
  message : Option String

/-- The empty-dataset sentinel `{loss: null, samples: 0, message: "No data"}`. -/
def noData : ModelMetrics :=
  { loss := none, samples := 0, predict_mean := none,
    message := some "No data" }

/-- Arithmetic mean `sum(ys) / len(ys)` as computed by `baseline_train`. -/
def ymean (ys : List ℚ) : ℚ :=
  ys.sum / ys.length

/-- Population variance `sum((v - mean)**2 for v in ys) / len(ys)`
(divisor `N`, not `N - 1`). -/
def yvar (ys : List ℚ) : ℚ :=
  (ys.map fun v => (v - ymean ys) ^ 2).sum / ys.length

/-- `baseline_train(rows)`: the sentinel on an empty list, otherwise the
mean/variance statistics of the two target components, with
`loss = sqrt(var0 + var1)`.  A row is modelled by its `y` pair. -/
noncomputable def baseline_train (rows : List (ℚ × ℚ)) : ModelMetrics :=
  if rows = [] then noData
  else
    let y0 := rows.map Prod.fst
    let y1 := rows.map Prod.snd
    { loss := some (Real.sqrt ((yvar y0 : ℝ) + (yvar y1 : ℝ)))
      samples := rows.length
      predict_mean := some (ymean y0, ymean y1)
      message := none }

theorem ymean_replicate (n : ℕ) (hn : n ≠ 0) (a : ℚ) :
    ymean (List.replicate n a) = a := by
  simp only [ymean, List.sum_replicate, List.length_replicate,
    nsmul_eq_mul]
  field_simp

theorem yvar_replicate (n : ℕ) (hn : n ≠ 0) (a : ℚ) :
    yvar (List.replicate n a) = 0 := by
  simp [yvar, List.map_replicate, ymean_replicate n hn, sub_self]

/-- C4: `baseline_train` returns the `{loss: null, samples: 0,
message: "No data"}` sentinel on an empty list; otherwise it returns
`{loss: sqrt(var0 + var1), samples: N, predict_mean: [mean0, mean1]}` with
arithmetic means and population variances (divisor N); when all targets
equal `(a, b)`, the loss is 0 and the predicted mean is `(a, b)`. -/
theorem c4_baseline_train (rows : List (ℚ × ℚ)) :
    (rows = [] → baseline_train rows = noData) ∧
    (rows ≠ [] →
      baseline_train rows =
        { loss := some (Real.sqrt ((yvar (rows.map Prod.fst) : ℝ) +
            (yvar (rows.map Prod.snd) : ℝ)))
          samples := rows.length
          predict_mean := some (ymean (rows.map Prod.fst),
            ymean (rows.map Prod.snd))
          message := none }) ∧
    (∀ a b : ℚ, rows ≠ [] → (∀ r ∈ rows, r = (a, b)) →
      baseline_train rows =
        { loss := some 0, samples := rows.length,
          predict_mean := some (a, b), message := none }) := by
  refine ⟨fun h => by simp [baseline_train, h], fun h => by
    simp [baseline_train, h], fun a b h hall => ?_⟩
  have hn : rows.length ≠ 0 := by
    simpa [List.length_eq_zero] using h
  have h0 : rows.map Prod.fst = List.replicate rows.length a := by
    refine List.eq_replicate_iff.mpr ⟨by simp, fun x hx => ?_⟩
    obtain ⟨r, hr, rfl⟩ := List.mem_map.mp hx
    rw [hall r hr]
  have h1 : rows.map Prod.snd = List.replicate rows.length b := by
    refine List.eq_replicate_iff.mpr ⟨by simp, fun x hx => ?_⟩
    obtain ⟨r, hr, rfl⟩ := List.mem_map.mp hx
    rw [hall r hr]
  simp [baseline_train, h, h0, h1, yvar_replicate rows.length hn,
    ymean_replicate rows.length hn]

theorem c4_baseline_train_witness :
    (([((3 : ℚ), (4 : ℚ)), ((3 : ℚ), (4 : ℚ))] : List (ℚ × ℚ)) ≠ [] ∧
      (∀ r ∈ ([((3 : ℚ), (4 : ℚ)), ((3 : ℚ), (4 : ℚ))] : List (ℚ × ℚ)),
        r = (3, 4))) ∧
    baseline_train [((3 : ℚ), (4 : ℚ)), ((3 : ℚ), (4 : ℚ))] =
      { loss := some 0, samples := 2, predict_mean := some (3, 4),
        message := none } :=
  ⟨⟨by decide, by decide⟩,
    (c4_baseline_train [((3 : ℚ), (4 : ℚ)), ((3 : ℚ), (4 : ℚ))]).2.2 3 4
      (by decide) (by decide)⟩

/-! ## Model registry (train_unet.py, `update_registry`) and train `main` -/

/-- One `ModelRecord` appended per training run. -/
structure ModelRecord where
  version : String
  trained_at : String
  epochs : ℤ
  metrics : ModelMetrics
  dataset : String
  status : String

/-- The registry document `{models: [...]}`. -/
structure Registry where
  models : List ModelRecord

/-- Registry read: a missing file is equivalent to `{models: []}`. -/
def registry_read (file : Option Registry) : Registry :=
  file.getD { models := [] }

/-- `update_registry`: read-or-default the document, push the record to the
end of `models`, rewrite the whole document. -/
def update_registry (file : Option Registry) (model_entry : ModelRecord) :
    Option Registry :=
  some { models := (registry_read file).models ++ [model_entry] }

/-- C8: `read` is total with `{models: []}` for a missing file, `append`
pushes to the end of `models`, and from a missing file
`append r1; append r2` leaves exactly `[r1, r2]`. -/
theorem c8_registry_append :
    registry_read none = { models := [] } ∧
    (∀ (s : Option Registry) (r : ModelRecord),
      (registry_read (update_registry s r)).models =
        (registry_read s).models ++ [r]) ∧
    (∀ r1 r2 : ModelRecord,
      (registry_read (update_registry (update_registry none r1) r2)).models =
        [r1, r2]) :=
  ⟨rfl, fun s r => rfl, fun r1 r2 => rfl⟩

/-- One line of the dataset JSONL file: blank, or a parsed row's `y` pair. -/
inductive DatasetLine where
  | blank : DatasetLine
  | row (y0 y1 : ℚ) : DatasetLine

/-- `load_jsonl(path)`: `[]` for a missing file; blank lines are skipped. -/
def load_jsonl (file : Option (List DatasetLine)) : List (ℚ × ℚ) :=
  match file with
  | none => []
  | some lines =>
      lines.filterMap fun l =>
        match l with
        | .blank => none
        | .row a b => some (a, b)

/-- `main` of train_unet.py: load the dataset, compute baseline metrics,
build a `ModelRecord` with status `"ready"` and append it to the registry. -/
noncomputable def train_main (dataset_file : Option (List DatasetLine))
    (registry_file : Option Registry) (model_version trained_at : String)
    (epochs : ℤ) (dataset_path : String) : Option Registry :=
  let rows := load_jsonl dataset_file
  let metrics := baseline_train rows
  let model_entry : ModelRecord :=
    { version := model_version, trained_at := trained_at, epochs := epochs,
      metrics := metrics, dataset := dataset_path, status := "ready" }
  update_registry registry_file model_entry

/-- C10 (implicit): a missing dataset file loads as `[]` (and blank lines
are skipped), so the train command never fails on a missing dataset — it
appends exactly one `ModelRecord` with status `"ready"` whose metrics are
the `"No data"` sentinel. -/
theorem c10_missing_dataset (registry_file : Option Registry)
    (v t : String) (e : ℤ) (d : String) :
    load_jsonl none = [] ∧
    load_jsonl (some [.blank, .row 1 2, .blank]) = [(1, 2)] ∧
    train_main none registry_file v t e d =
      some { models := (registry_read registry_file).models ++
        [{ version := v, trained_at := t, epochs := e, metrics := noData,
           dataset := d, status := "ready" }] } :=
  ⟨rfl, rfl, rfl⟩

end GaussAurora
